import Mathlib

/-!
Shallow embedding of the mdboy markdown manager (src/mdboy) and its plugins.

Conventions of the embedding:
* Python strings are Lean `String`s; Python string methods (`strip`,
  `startswith`, `count`) are re-implemented below over `List Char`.
* Python exceptions are modelled with `Except PyErr`; a function that can
  raise returns `Except PyErr α`, and an exception that propagates out of a
  loop carries the mutations already applied.
* Python's seed-randomised `hash` on strings is modelled by a concrete
  injective-in-practice polynomial hash `pyHash`; the code under study only
  compares hash values for equality.
* Dictionaries keyed by plugins are association lists keyed by the plugin's
  class name, because `MDFPlugin.__eq__`/`__hash__` identify plugins by
  `self.__class__.__name__` alone (src/mdboy/plugin.py lines 35-39).
-/

deriving instance DecidableEq for Except

/-- Python exception kinds raised by the code under study. -/
inductive PyErr where
  | keyError
  | attributeError
  | typeError
  | valueError
  | nameError
deriving DecidableEq, Repr

/-- Whitespace characters removed by Python's `str.strip()` (those that occur
in the documents under study). -/
def pyIsSpace (c : Char) : Bool := c = ' ' || c = '\t' || c = '\n' || c = '\r'

/-- Remove leading and trailing characters matching `p` (Python `str.strip`). -/
def stripEnds (p : Char → Bool) (l : List Char) : List Char :=
  ((l.dropWhile p).reverse.dropWhile p).reverse

/-- Python `s.strip()`. -/
def pyStrip (s : String) : String := String.mk (stripEnds pyIsSpace s.data)

/-- Python `s.strip("#")`. -/
def pyStripHash (s : String) : String :=
  String.mk (stripEnds (fun c => c = '#') s.data)

/-- Python `s.count("#")`. -/
def pyCountHash (s : String) : Nat := s.data.count '#'

/-- `listStartsWith s t` holds when `t` is an initial segment of `s`. -/
def listStartsWith : List Char → List Char → Bool
  | _, [] => true
  | [], _ :: _ => false
  | a :: s, b :: t => a = b && listStartsWith s t

/-- Python `s.startswith(t)`. -/
def pyStartsWith (s t : String) : Bool := listStartsWith s.data t.data

/-- Index of the first line satisfying `p`, or the length of the list if none
does: the result of the Python idiom
`idx = 0; while idx < len(lines) and not p(lines[idx]): idx += 1`. -/
def scanIdx (p : String → Bool) : List String → Nat
  | [] => 0
  | s :: rest => if p s then 0 else scanIdx p rest + 1

/-- Model of CPython's (opaque, seed-randomised) string hash: a concrete
polynomial hash.  Only equality of hash values matters to the code. -/
def pyHash (s : String) : Nat := s.data.foldl (fun a c => a * 31 + c.toNat) 7

/-- A plugin instance.  `className` is `self.__class__.__name__`; `commands`
lists the names collected by the `CommandProvider` metaclass (the methods
marked with the `@command` decorator), in declaration order; `attrs` lists the
attribute names the instance answers `hasattr` for; `state` stands for the
per-instance mutable attributes (e.g. `Tag._tags`), which `__eq__`/`__hash__`
ignore. -/
structure MDFPlugin where
  className : String
  commands : List String
  attrs : List String
  state : List String
deriving DecidableEq, Repr

/-- `MDFPlugin.__eq__` (src/mdboy/plugin.py lines 38-39): class-name equality. -/
def MDFPlugin.pyEq (a b : MDFPlugin) : Bool := a.className = b.className

/-- `MDFPlugin.__hash__` (src/mdboy/plugin.py lines 35-36): hash of the class
name. -/
def MDFPlugin.pyHashVal (p : MDFPlugin) : Nat := pyHash p.className

/-- Python `list.remove` on a plugin list: drop the first element equal (by
`MDFPlugin.__eq__`) to `x`, `ValueError` if none is. -/
def pyListRemove (l : List MDFPlugin) (x : MDFPlugin) : Except PyErr (List MDFPlugin) :=
  match l with
  | [] => .error .valueError
  | y :: rest =>
    if y.pyEq x then .ok rest
    else
      match pyListRemove rest x with
      | .ok r => .ok (y :: r)
      | .error e => .error e

/-- Association-list lookup modelling `d[k]` on the plugin-keyed dictionaries
(`none` models a `KeyError`). -/
def dictLookup (d : List (String × List String)) (k : String) : Option (List String) :=
  match d.find? (fun kv => kv.1 = k) with
  | some kv => some kv.2
  | none => none

/-- Replace the value stored under an existing key `k`. -/
def dictSet (d : List (String × List String)) (k : String) (v : List String) :
    List (String × List String) :=
  d.map (fun kv => if kv.1 = k then (k, v) else kv)

/-- State of `MarkdownManager` (src/mdboy/manager.py `__init__`).
`_included_dirs`/`_included_files` each hold a distinguished `'common'` entry
(a plain list) next to plugin-keyed entries; they are split here into
`commonDirs`/`commonFiles` and `dirsByPlugin`/`filesByPlugin` because an
`MDFPlugin` key never compares equal to the string key `'common'`.
`lastPluginsHash = none` models the initial `"None"` sentinel, which is never
equal to an integer hash sum. -/
structure MarkdownManager where
  root : Option String
  commonDirs : List String
  dirsByPlugin : List (String × List String)
  commonFiles : List String
  filesByPlugin : List (String × List String)
  plugins : List MDFPlugin
  lastPluginsHash : Option Nat
  validCmds : List String
  queuedCmds : List (String × String × List String)
deriving DecidableEq, Repr

/-- `MarkdownManager.__init__`. -/
def MarkdownManager.init (root : Option String) : MarkdownManager :=
  { root := root, commonDirs := [], dirsByPlugin := [], commonFiles := [],
    filesByPlugin := [], plugins := [], lastPluginsHash := none,
    validCmds := [], queuedCmds := [] }

/-- `MarkdownManager.add_plugin`: append to the plugin list. -/
def MarkdownManager.add_plugin (m : MarkdownManager) (p : MDFPlugin) : MarkdownManager :=
  { m with plugins := m.plugins ++ [p] }

/-- `MarkdownManager.remove_plugin`: `self.plugins.remove(plugin)`. -/
def MarkdownManager.remove_plugin (m : MarkdownManager) (p : MDFPlugin) :
    Except PyErr MarkdownManager :=
  match pyListRemove m.plugins p with
  | .ok l => .ok { m with plugins := l }
  | .error e => .error e

/-- `if self.root: path = self.root / path`. -/
def joinRoot (root : Option String) (path : String) : String :=
  match root with
  | some r => r ++ "/" ++ path
  | none => path

/-- `MarkdownManager.add_dir` (src/mdboy/manager.py lines 36-49).  The
`path.is_dir()` check only logs a warning and is not modelled.  With a plugin
argument the code runs `self._included_dirs[plugin].setdefault(path, []).append(path)`:
the subscript raises `KeyError` when the plugin has no entry (and the manager
never creates one); when an entry exists its keys behave like a set of paths.
Without a plugin the path is appended to the common list. -/
def MarkdownManager.add_dir (m : MarkdownManager) (path : String)
    (plugin : Option MDFPlugin) : Except PyErr MarkdownManager :=
  let path := joinRoot m.root path
  match plugin with
  | some p =>
    match dictLookup m.dirsByPlugin p.className with
    | none => .error .keyError
    | some ds =>
      .ok { m with dirsByPlugin :=
              dictSet m.dirsByPlugin p.className (if path ∈ ds then ds else ds ++ [path]) }
  | none => .ok { m with commonDirs := m.commonDirs ++ [path] }

/-- `MarkdownManager.add_file` (src/mdboy/manager.py lines 51-64).  The
`path.is_file()` check only logs a warning.  With a plugin argument,
`self._included_files[plugin]` raises `KeyError` exactly as in `add_dir`.
Without one, the code runs `self._included_files['common'].setdefault(...)`,
but `_included_files['common']` is the plain list created in `__init__`, and a
list has no `setdefault` method: `AttributeError`. -/
def MarkdownManager.add_file (m : MarkdownManager) (path : String)
    (plugin : Option MDFPlugin) : Except PyErr MarkdownManager :=
  let path := joinRoot m.root path
  match plugin with
  | some p =>
    match dictLookup m.filesByPlugin p.className with
    | none => .error .keyError
    | some fl =>
      .ok { m with filesByPlugin :=
              dictSet m.filesByPlugin p.className (if path ∈ fl then fl else fl ++ [path]) }
  | none => .error .attributeError

/-- `MarkdownManager.plugin_files` (src/mdboy/manager.py lines 87-100).
`fs d` models `d.glob("**/*.md")`, the recursively matched documents of
directory `d` at resolution time.  The function concatenates the plugin's
directories' matches, the plugin's explicit files and the common explicit
files; it never consults the common directories and never deduplicates. -/
def MarkdownManager.plugin_files (fs : String → List String) (m : MarkdownManager)
    (p : MDFPlugin) : List String :=
  (match dictLookup m.dirsByPlugin p.className with
   | some ds => (ds.map fs).flatten
   | none => []) ++
  (match dictLookup m.filesByPlugin p.className with
   | some fl => fl
   | none => []) ++
  m.commonFiles

/-- `MarkdownManager.valid_commands` (src/mdboy/manager.py lines 122-132):
when the sum of plugin hashes differs from the cached one, the current
plugins' command names are appended (`extend`, with no reset) to the cached
list, which is then returned. -/
def MarkdownManager.valid_commands (m : MarkdownManager) :
    List String × MarkdownManager :=
  let h := (m.plugins.map (fun p => pyHash p.className)).sum
  if m.lastPluginsHash = some h then (m.validCmds, m)
  else
    let vc := m.validCmds ++ (m.plugins.map (fun p => p.commands)).flatten
    (vc, { m with validCmds := vc, lastPluginsHash := some h })

/-- `MarkdownManager.queue_command` (src/mdboy/manager.py lines 139-146):
`plugin not in self.plugins` uses `MDFPlugin.__eq__`; the second guard is
`hasattr(plugin, cmd)` — any attribute of the instance, not membership in
`plugin.commands`.  Failed guards only log an error. -/
def MarkdownManager.queue_command (m : MarkdownManager) (p : MDFPlugin)
    (cmd : String) (args : List String) : MarkdownManager :=
  if m.plugins.any (fun q => q.pyEq p) = false then m
  else if p.attrs.contains cmd = false then m
  else { m with queuedCmds := m.queuedCmds ++ [(p.className, cmd, args)] }

/-- A `Tag()` instance (src/mdboy/plugins/tag.py): the `@command`-decorated
methods are `add_tag`, `add_tags`, `remove_tag`, `remove_tags`; `hook`,
`tags` and `commands` are attributes but not commands; `state` holds `_tags`. -/
def TagPluginInstance (ts : List String) : MDFPlugin :=
  { className := "Tag",
    commands := ["add_tag", "add_tags", "remove_tag", "remove_tags"],
    attrs := ["add_tag", "add_tags", "remove_tag", "remove_tags",
              "hook", "tags", "commands"],
    state := ts }

/-- The registered `Tag()` instance used in the concrete scenarios. -/
def pTag : MDFPlugin := TagPluginInstance []

/-- A `TableOfContents()` instance (src/mdboy/plugins/toc.py): only
`modify_toc` carries the `@command` marker. -/
def tocPlugin : MDFPlugin :=
  { className := "TableOfContents",
    commands := ["modify_toc"],
    attrs := ["modify_toc", "find_toc", "generate_toclist_from_lines",
              "hook", "commands"],
    state := [] }

/-- A Python argument value as passed in a queued command's argument list:
either a string or a list of strings (the two shapes the Tag commands take). -/
inductive PyArg where
  | s (v : String)
  | ls (v : List String)
deriving DecidableEq, Repr

/-- Python `list.remove(x)` on a string list: drop the first occurrence,
`none` when absent (a `ValueError` at the call site). -/
def pyRemoveFirst (x : String) : List String → Option (List String)
  | [] => none
  | y :: t => if y = x then some t else (pyRemoveFirst x t).map (fun r => y :: r)

/-- `Tag.remove_tags` loop (src/mdboy/plugins/tag.py lines 28-31): removes the
given tags one at a time; a missing tag raises `ValueError`, and the
removals already performed persist (the error carries the mutated list). -/
def removeTagsLoop : List String → List String → Except (PyErr × List String) (List String)
  | tags, [] => .ok tags
  | tags, t :: ts =>
    match pyRemoveFirst t tags with
    | some r => removeTagsLoop r ts
    | none => .error (.valueError, tags)

/-- `getattr(plugin, cmd)(*args)` for a `Tag` plugin whose `_tags` list is
`tags` (src/mdboy/plugins/tag.py lines 16-31).  On an exception the error
carries the `_tags` list as mutated so far.  A call that does not match a
command's signature raises `TypeError`. -/
def execTagCmd (tags : List String) (cmd : String) (args : List PyArg) :
    Except (PyErr × List String) (List String) :=
  match cmd, args with
  | "add_tag", [.s t] => .ok (tags ++ [t])
  | "add_tags", [.ls ts] => .ok (tags ++ ts)
  | "remove_tag", [.s t] =>
    match pyRemoveFirst t tags with
    | some r => .ok r
    | none => .error (.valueError, tags)
  | "remove_tags", [.ls ts] => removeTagsLoop tags ts
  | _, _ => .error (.typeError, tags)

/-- Manager state relevant to queued-command execution: `heap` maps each
registered plugin's class name to its `_tags` state (the code treats plugins
as singletons-by-type), and `queuedCmds` is the single global FIFO queue of
`(plugin, command name, args)` entries. -/
structure ExecState where
  heap : List (String × List String)
  queuedCmds : List (String × String × List PyArg)
deriving DecidableEq, Repr

/-- The loop of `MarkdownManager.run_queued_commands` (src/mdboy/manager.py
lines 157-162): `for plugin, cmd, args in self._queued_commands:
getattr(plugin, cmd)(*args)`.  An exception aborts the loop, keeping the
mutations applied so far. -/
def runLoop (heap : List (String × List String)) :
    List (String × String × List PyArg) →
    Except (PyErr × List (String × List String)) (List (String × List String))
  | [] => .ok heap
  | (pn, cmd, args) :: rest =>
    match dictLookup heap pn with
    | none => .error (.keyError, heap)
    | some tags =>
      match execTagCmd tags cmd args with
      | .ok t2 => runLoop (dictSet heap pn t2) rest
      | .error (e, t2) => .error (e, dictSet heap pn t2)

/-- `MarkdownManager.run_queued_commands`: run the loop, then
`self._queued_commands.clear()`.  When a command raises, the exception
propagates before `clear()` runs, so the error state keeps every queued
entry. -/
def run_queued_commands (m : ExecState) : Except (PyErr × ExecState) ExecState :=
  match runLoop m.heap m.queuedCmds with
  | .ok h => .ok ⟨h, []⟩
  | .error (e, h) => .error (e, ⟨h, m.queuedCmds⟩)

/-- `Tag.hook` restricted to its transform on the file's lines
(src/mdboy/plugins/tag.py lines 33-92), with the file's content passed in as
`lines`.  With no tags, `l.info(...)` raises `NameError`: no name `l` is
defined in tag.py.  Otherwise the title scan runs `idx += 1` before the
`idx == len(lines)` check, so with the title on the last line the function
returns `False` without writing; in every other case it reaches
`if self.tags > 1:`, which compares a list with an int and raises
`TypeError`, so the code below it is unreachable and the file is never
written. -/
def Tag.hook (tags : List String) (lines : List String) : Except PyErr Bool :=
  if tags.isEmpty then .error .nameError
  else
    let idx := scanIdx (fun s => pyStartsWith (pyStrip s) "# ") lines + 1
    if idx = lines.length then .ok false
    else .error .typeError

/-- `TitleTags.add_tags` (src/mdboy/plugins/titletags.py lines 15-53).  The
same title scan with `idx += 1` before the check: with the title on the last
line it returns `[]`; in every other case (a title with lines after it, or no
title at all) it reaches `self.tags`, an attribute that no `TitleTags`
constructor or property defines (the constructor discards its `tags`
parameter), so `AttributeError` is raised; the code below is unreachable. -/
def TitleTags.add_tags (lines : List String) (tags : List String) :
    Except PyErr (List String) :=
  let idx := scanIdx (fun s => pyStartsWith (pyStrip s) "# ") lines + 1
  if idx = lines.length then .ok []
  else .error .attributeError

/-- `TableOfContents.find_toc` (src/mdboy/plugins/toc.py lines 11-29): scan
for a line starting with `# Table of Contents`; the second loop's condition
calls `lines[toc_end].contains("---")`, but Python strings have no
`contains` method, so the first time the condition is evaluated with
`toc_end < len(lines)` it raises `AttributeError`. -/
def TableOfContents.find_toc (lines : List String) : Except PyErr (Nat × Nat) :=
  let s := scanIdx (fun l => pyStartsWith l "# Table of Contents") lines
  let e := s + 1
  if e < lines.length then .error .attributeError
  else .ok (s, e)

/-- The `toclist` built inside `generate_toclist_from_lines`
(src/mdboy/plugins/toc.py lines 36-41): for every line starting with `#`,
the pair of `title = line.strip("#").strip()` and
`depth = title.count("#")` — the count is taken on the already-stripped
title, not on the heading's marker characters. -/
def TableOfContents.generate_tocpairs (lines : List String) : List (String × Nat) :=
  lines.filterMap (fun l =>
    if pyStartsWith l "#" then
      let title := pyStrip (pyStripHash l)
      some (title, pyCountHash title)
    else none)

/-- `TableOfContents.generate_toclist_from_lines` (src/mdboy/plugins/toc.py
lines 31-48): the `# Table of Contents` heading, one `{' ' * depth}- {title}`
entry per pair, then the `---` terminator. -/
def TableOfContents.generate_toclist_from_lines (lines : List String) : List String :=
  ("# Table of Contents" ::
    (TableOfContents.generate_tocpairs lines).map
      (fun td => String.mk (List.replicate td.2 ' ') ++ "- " ++ td.1)) ++ ["---"]

/-- `TableOfContents.modify_toc` (src/mdboy/plugins/toc.py lines 50-72):
remove the lines of an existing TOC block (when `toc_start` is in range),
regenerate, and splice the new block at `toc_start` (Python slices clamp
out-of-range indices, as `take`/`drop` do). -/
def TableOfContents.modify_toc (lines : List String) : Except PyErr (List String) :=
  match TableOfContents.find_toc lines with
  | .error e => .error e
  | .ok (s, e) =>
    let lines2 := if s ≠ lines.length then lines.take s ++ lines.drop e else lines
    let toc := TableOfContents.generate_toclist_from_lines lines2
    .ok (lines2.take s ++ toc ++ lines2.drop s)

/-- Filesystem model for the C1 scenario: directory `docs` recursively
contains the single document `docs/a.md`. -/
def c1fs : String → List String := fun d => if d = "docs" then ["docs/a.md"] else []

/-- Scope configuration for the C1 scenario, following the data model of
`MarkdownManager.__init__`: a common directory `docs`, a common explicit file
`f.md`, and the same `f.md` registered as an explicit file of the Tag
plugin. -/
def c1state : MarkdownManager :=
  { root := none, commonDirs := ["docs"], dirsByPlugin := [],
    commonFiles := ["f.md"], filesByPlugin := [("Tag", ["f.md"])],
    plugins := [pTag], lastPluginsHash := none, validCmds := [], queuedCmds := [] }

/-- Manager with a `Tag()` and a `TableOfContents()` plugin registered, for
the C2 scenario. -/
def c2m1 : MarkdownManager :=
  ((MarkdownManager.init none).add_plugin pTag).add_plugin tocPlugin

/-- The C2 scenario continued: read `valid_commands`, then remove the
`TableOfContents` plugin. -/
def c2afterRemove : Except PyErr MarkdownManager :=
  (c2m1.valid_commands).2.remove_plugin tocPlugin

/-- Manager with a `Tag()` plugin registered, for the C3 scenario. -/
def c3m : MarkdownManager := { MarkdownManager.init none with plugins := [pTag] }

/-- Execution state for the C4 scenario: a `Tag` plugin with no tags, and a
queue whose first entry (`remove_tag "x"`) raises `ValueError`. -/
def c4fail : ExecState :=
  ⟨[("Tag", [])], [("Tag", "remove_tag", [.s "x"]), ("Tag", "add_tag", [.s "y"])]⟩

/-- C1: counterexample.  With a common directory `docs` containing `docs/a.md`
and the file `f.md` registered both for the Tag plugin and in the common
files, `plugin_files` returns `f.md` twice (not at most once) and omits
`docs/a.md` (the common directories' matches are not included), refuting the
claimed deduplicated four-way union. -/
theorem C1_counterexample :
    (MarkdownManager.plugin_files c1fs c1state pTag).count "f.md" = 2 ∧
    "docs" ∈ c1state.commonDirs ∧
    "docs/a.md" ∈ c1fs "docs" ∧
    "docs/a.md" ∉ MarkdownManager.plugin_files c1fs c1state pTag := by decide

/-- C1 (amended): a document is in `plugin_files p` exactly when it is matched
by one of `p`'s registered directories, is one of `p`'s registered explicit
files, or is one of the common explicit files; common directories contribute
nothing and the result is a concatenation that may repeat documents. -/
theorem C1_plugin_files_membership (fs : String → List String)
    (m : MarkdownManager) (p : MDFPlugin) (x : String) :
    x ∈ MarkdownManager.plugin_files fs m p ↔
      ((∃ ds, dictLookup m.dirsByPlugin p.className = some ds ∧ ∃ d ∈ ds, x ∈ fs d) ∨
       (∃ fl, dictLookup m.filesByPlugin p.className = some fl ∧ x ∈ fl) ∨
       x ∈ m.commonFiles) := by
  unfold MarkdownManager.plugin_files
  rcases hd : dictLookup m.dirsByPlugin p.className with _ | ds <;>
    rcases hf : dictLookup m.filesByPlugin p.className with _ | fl <;>
      simp [List.mem_append, List.mem_flatten, List.mem_map]

/-- C2: after registering Tag and TableOfContents, reading `valid_commands`,
and removing TableOfContents, the next read returns the old five names with
the four Tag names appended again: the stale `modify_toc` of the removed
plugin is still reported and the Tag names are duplicated, because the cache
is extended without being cleared. -/
theorem C2_valid_commands_stale :
    (c2m1.valid_commands).1 =
      ["add_tag", "add_tags", "remove_tag", "remove_tags", "modify_toc"] ∧
    c2afterRemove.map
        (fun m2 => ((m2.valid_commands).1, m2.plugins.map (fun p => p.className))) =
      .ok (["add_tag", "add_tags", "remove_tag", "remove_tags", "modify_toc",
            "add_tag", "add_tags", "remove_tag", "remove_tags"], ["Tag"]) := by decide

/-- C3: counterexample.  `hook` is not a command of the Tag plugin (it is not
in `plugin.commands`), yet `queue_command` appends it to the queue, because
the code only checks `hasattr(plugin, cmd)`. -/
theorem C3_counterexample :
    pTag.commands.contains "hook" = false ∧
    c3m.queuedCmds = [] ∧
    (c3m.queue_command pTag "hook" []).queuedCmds = [("Tag", "hook", [])] := by decide

/-- C3 (amended): `queue_command` appends the triple exactly when the plugin
is registered (by class-name equality) and `cmd` names any attribute of the
plugin (`hasattr`, not membership in `plugin.commands`); when either condition
fails, the error is only reported and the manager, queue included, is left
unchanged. -/
theorem C3_queue_append_iff_hasattr (m : MarkdownManager) (p : MDFPlugin)
    (cmd : String) (args : List String) :
    (m.plugins.any (fun q => q.pyEq p) = true ∧ p.attrs.contains cmd = true →
      (m.queue_command p cmd args).queuedCmds =
        m.queuedCmds ++ [(p.className, cmd, args)]) ∧
    (¬ (m.plugins.any (fun q => q.pyEq p) = true ∧ p.attrs.contains cmd = true) →
      m.queue_command p cmd args = m) := by
  constructor
  · rintro ⟨h1, h2⟩
    have h2' : cmd ∈ p.attrs := by simpa using h2
    simp [MarkdownManager.queue_command, h1, h2']
  · intro h
    by_cases h1 : m.plugins.any (fun q => q.pyEq p) = true
    · by_cases h2 : p.attrs.contains cmd = true
      · exact absurd ⟨h1, h2⟩ h
      · have h2' : cmd ∉ p.attrs := by
          rw [Bool.not_eq_true] at h2
          simpa using h2
        rw [Bool.not_eq_true] at h2
        simp [MarkdownManager.queue_command, h1, h2, h2']
    · rw [Bool.not_eq_true] at h1
      simp [MarkdownManager.queue_command, h1]

/-- C3 (amended), witness: queueing the real command `add_tag` on the
registered Tag plugin appends it; queueing it on a manager with no plugins
registered leaves the manager unchanged. -/
theorem C3_queue_append_iff_hasattr_witness :
    (c3m.queue_command pTag "add_tag" ["x"]).queuedCmds =
      c3m.queuedCmds ++ [("Tag", "add_tag", ["x"])] ∧
    (MarkdownManager.init none).queue_command pTag "add_tag" ["x"] =
      MarkdownManager.init none :=
  ⟨(C3_queue_append_iff_hasattr c3m pTag "add_tag" ["x"]).1 (by decide),
   (C3_queue_append_iff_hasattr (MarkdownManager.init none) pTag "add_tag" ["x"]).2
     (by decide)⟩

/-- C4: counterexample.  With queue `[remove_tag "x", add_tag "y"]` and no
tags present, the first command raises `ValueError`; the exception propagates
before `clear()` runs, so after the failed run the queue still holds both
entries — it is not empty. -/
theorem C4_counterexample :
    run_queued_commands c4fail =
      .error (.valueError, ⟨[("Tag", [])], c4fail.queuedCmds⟩) ∧
    c4fail.queuedCmds.length = 2 := by decide

/-- C4 (amended): when every queued command succeeds, `run_queued_commands`
applies them strictly in FIFO order and clears the queue: queuing
`add_tag x` then `add_tag y` on a Tag plugin with tags `ts` yields
`ts ++ [x, y]` (never `[y, x]`) and an empty queue. -/
theorem C4_fifo_and_clear (ts : List String) (x y : String) :
    run_queued_commands
        ⟨[("Tag", ts)], [("Tag", "add_tag", [.s x]), ("Tag", "add_tag", [.s y])]⟩ =
      .ok ⟨[("Tag", ts ++ [x, y])], []⟩ := by
  have h : ts ++ [x, y] = (ts ++ [x]) ++ [y] := by simp
  rw [h]
  rfl

/-- Python `list.remove` on `l ++ [p1]` succeeds whenever `p1` equals the
sought value, and removes exactly one element. -/
theorem pyListRemove_append (l : List MDFPlugin) (p1 p2 : MDFPlugin)
    (h : p1.pyEq p2 = true) :
    ∃ r, pyListRemove (l ++ [p1]) p2 = .ok r ∧ r.length = l.length := by
  induction l with
  | nil => exact ⟨[], by simp [pyListRemove, h], rfl⟩
  | cons a t ih =>
    by_cases ha : a.pyEq p2 = true
    · exact ⟨t ++ [p1], by simp [pyListRemove, ha], by simp⟩
    · obtain ⟨r, hr, hlen⟩ := ih
      refine ⟨a :: r, ?_, by simp [hlen]⟩
      rw [Bool.not_eq_true] at ha
      simp [pyListRemove, ha, hr]

/-- C5: any two instances of the same concrete plugin type compare equal and
hash identically, and after `add_plugin p1`, calling `remove_plugin` with a
freshly constructed instance `p2` of the same type succeeds and removes one
entry from the plugin list. -/
theorem C5_plugin_identity (m : MarkdownManager) (p1 p2 : MDFPlugin)
    (h : p1.className = p2.className) :
    p1.pyEq p2 = true ∧ p1.pyHashVal = p2.pyHashVal ∧
    ∃ m2, (m.add_plugin p1).remove_plugin p2 = .ok m2 ∧
      m2.plugins.length = m.plugins.length := by
  have heq : p1.pyEq p2 = true := by simp [MDFPlugin.pyEq, h]
  refine ⟨heq, by simp [MDFPlugin.pyHashVal, h], ?_⟩
  obtain ⟨r, hr, hlen⟩ := pyListRemove_append m.plugins p1 p2 heq
  refine ⟨{ m.add_plugin p1 with plugins := r }, ?_, hlen⟩
  simp [MarkdownManager.remove_plugin, MarkdownManager.add_plugin, hr]

/-- C5, witness: two differently-configured Tag instances (tags `["a"]`
versus `[]`) are equal, hash equal, and the fresh instance removes the
registered one. -/
theorem C5_plugin_identity_witness :
    (TagPluginInstance ["a"]).pyEq (TagPluginInstance []) = true ∧
    (TagPluginInstance ["a"]).pyHashVal = (TagPluginInstance []).pyHashVal ∧
    ∃ m2, ((MarkdownManager.init none).add_plugin
          (TagPluginInstance ["a"])).remove_plugin (TagPluginInstance []) = .ok m2 ∧
      m2.plugins.length = (MarkdownManager.init none).plugins.length :=
  C5_plugin_identity (MarkdownManager.init none) (TagPluginInstance ["a"])
    (TagPluginInstance []) rfl

/-- C6: registering a scope raises instead of warning-and-recording:
`add_file` with no plugin raises `AttributeError` (the common entry is a list
and has no `setdefault`), and `add_dir`/`add_file` for a plugin with no
previously registered scope raise `KeyError`; only `add_dir` without a plugin
records its path. -/
theorem C6_registration_raises :
    (MarkdownManager.init none).add_file "f.md" none = .error .attributeError ∧
    (MarkdownManager.init none).add_dir "d" (some pTag) = .error .keyError ∧
    (MarkdownManager.init none).add_file "f.md" (some pTag) = .error .keyError ∧
    ((MarkdownManager.init none).add_dir "d" none).map (fun m => m.commonDirs) =
      .ok ["d"] := by decide

/-- C7: on a document with a title line and an existing bracketed tag list,
`Tag.hook` with tag `b` does not append into the bracket: it raises
`TypeError` at `if self.tags > 1:` (a list compared with an int) before any
write, so line 2 never becomes `"[#a, #b]\n"`. -/
theorem C7_tag_hook_raises_typeerror :
    Tag.hook ["b"] ["# Title\n", "[#a]\n"] = .error .typeError := by decide

/-- C8: on documents with no title line the tag-insertion transforms raise
instead of returning a "no modification" result: the `idx == len(lines)`
guard is checked only after `idx += 1` has overshot to `len + 1`, so
`Tag.hook` falls through to the `TypeError` at `self.tags > 1` and
`TitleTags.add_tags` falls through to the `AttributeError` at `self.tags`. -/
theorem C8_no_title_raises :
    Tag.hook ["a"] ["hello\n"] = .error .typeError ∧
    Tag.hook ["a"] [] = .error .typeError ∧
    TitleTags.add_tags ["hello\n"] ["a"] = .error .attributeError := by decide

/-- C9: TOC regeneration neither records marker counts nor is idempotent:
the heading `## Section` yields the pair `("Section", 0)` (the `#` count is
taken on the already-stripped title, so it is 0, not 2), and running
`modify_toc` a second time on its own output raises `AttributeError`, because
`find_toc` then evaluates the nonexistent `str.contains` method. -/
theorem C9_toc_depth_zero_and_second_run_raises :
    TableOfContents.generate_tocpairs ["## Section\n"] = [("Section", 0)] ∧
    TableOfContents.modify_toc ["# T\n"] =
      .ok ["# T\n", "# Table of Contents", "- T", "---"] ∧
    TableOfContents.modify_toc ["# T\n", "# Table of Contents", "- T", "---"] =
      .error .attributeError := by decide

/-- C10: counterexample.  A document whose only (and last) line is a title
makes `TitleTags.add_tags` return `[]` without raising: the overshot index
equals `len(lines)`, so the function returns before ever reading
`self.tags`.  The claim's "for every titled document it raises" is therefore
false as stated. -/
theorem C10_counterexample :
    TitleTags.add_tags ["# Title\n"] ["b"] = .ok [] := by decide

/-- Helper for C10: when some line strictly before the last satisfies `p`,
the Python title scan stops at an index whose successor is still in range. -/
theorem scanIdx_add_one_lt (p : String → Bool) (l : List String)
    (h : l.dropLast.any p = true) : scanIdx p l + 1 < l.length := by
  induction l with
  | nil => simp at h
  | cons a t ih =>
    cases t with
    | nil => simp at h
    | cons b u =>
      have hd : (a :: b :: u).dropLast = a :: (b :: u).dropLast := rfl
      rw [hd, List.any_cons, Bool.or_eq_true] at h
      by_cases hp : p a = true
      · have h0 : scanIdx p (a :: b :: u) = 0 := by simp [scanIdx, hp]
        rw [h0, List.length_cons, List.length_cons]
        omega
      · have h2 : (b :: u).dropLast.any p = true := by
          rcases h with h | h
          · exact absurd h hp
          · exact h
        have ih2 := ih h2
        have h1 : scanIdx p (a :: b :: u) = scanIdx p (b :: u) + 1 := by
          simp [scanIdx, hp]
        rw [h1, List.length_cons]
        omega

/-- C10 (amended): `TitleTags.add_tags` raises `AttributeError` (reading the
never-defined `self.tags`) whenever any line before the last is a title line;
and whenever it does return normally, the result is `[]` — so on a titled
document it can never produce modified lines. -/
theorem C10_add_tags_never_modifies :
    (∀ lines tags : List String,
        lines.dropLast.any (fun s => pyStartsWith (pyStrip s) "# ") = true →
        TitleTags.add_tags lines tags = .error .attributeError) ∧
    (∀ lines tags r : List String,
        TitleTags.add_tags lines tags = .ok r → r = []) := by
  constructor
  · intro lines tags h
    have hlt := scanIdx_add_one_lt _ lines h
    have hne : scanIdx (fun s => pyStartsWith (pyStrip s) "# ") lines + 1 ≠
        lines.length := by omega
    simp [TitleTags.add_tags, hne]
  · intro lines tags r h
    by_cases hc : scanIdx (fun s => pyStartsWith (pyStrip s) "# ") lines + 1 =
        lines.length
    · simp [TitleTags.add_tags, hc] at h
      exact h
    · simp [TitleTags.add_tags, hc] at h

/-- C10 (amended), witness: a titled document with a line after the title
raises `AttributeError`, and the non-raising case returns `[]`. -/
theorem C10_add_tags_never_modifies_witness :
    TitleTags.add_tags ["# T\n", "x\n"] ["b"] = .error .attributeError ∧
    ([] : List String) = [] :=
  ⟨C10_add_tags_never_modifies.1 ["# T\n", "x\n"] ["b"] (by decide),
   C10_add_tags_never_modifies.2 ["# Title\n"] ["b"] [] (by decide)⟩
